import Mathlib

/-!
# Verification of the GenAI serverless Telegram-bridge pipeline

Shallow embedding of `genai_serverless/lambda/lambda_handler.py`:
the transport codec (`extract_message`, `create_response`), conversation
memory, model invocation (`invoke_model`), outbound delivery
(`send_telegram_message`) and the pipeline orchestrator (`handler`).

Python strings are modelled as `String` / `List Char`; parsed JSON values
as the inductive `Json`; a raised Python exception as `PyErr` carrying
`str(e)`; the external HTTP POST and the hosted model are oracles passed
as explicit function arguments.  Module-level mutable state (the
`memory` variable) is threaded explicitly.
-/

namespace GenAI

/-- A raised Python exception, identified by its textual description
(`str(e)`), which is all the handler ever observes about it. -/
structure PyErr where
  msg : String
deriving DecidableEq, Repr

/-- A parsed JSON value, the result of a successful `json.loads`.
Objects carry their key/value pairs as an association list (with the
keys already distinct, as `json.loads` deduplicates them). -/
inductive Json where
  | null : Json
  | bool (b : Bool) : Json
  | num (n : Int) : Json
  | str (s : String) : Json
  | arr (xs : List Json) : Json
  | obj (kvs : List (String × Json)) : Json

/-- Python `dict.get(k)` on an object's association list. -/
def lookupKV (kvs : List (String × Json)) (k : String) : Option Json :=
  match kvs with
  | [] => none
  | (k', v) :: rest => if k' = k then some v else lookupKV rest k

/-- The Python type name of a parsed JSON value, as it appears in an
`AttributeError` message. -/
def jsonTypeName : Json → String
  | .null => "NoneType"
  | .bool _ => "bool"
  | .num _ => "int"
  | .str _ => "str"
  | .arr _ => "list"
  | .obj _ => "dict"

/-- The `AttributeError` that Python raises when `.get` is called on a
non-dict value. -/
def attrErrorGet (v : Json) : PyErr :=
  ⟨"AttributeError: " ++ jsonTypeName v ++ " object has no attribute get"⟩

/-- Embedding of `extract_message` (lambda_handler.py lines 14-16), taken from the
point where `json.loads(event['body'])` has produced a result: a parse
(or missing-key) failure is the `.error` input and re-raises; otherwise
`body.get("message", {}).get("text", "")` runs with Python's dynamic
semantics: `.get` on a non-dict raises `AttributeError`, a missing
`"message"` key defaults to `{}`, and a missing `"text"` key defaults
to `""`. -/
def extract_message (body : Except PyErr Json) : Except PyErr Json :=
  match body with
  | .error e => .error e
  | .ok (Json.obj kvs) =>
    match (lookupKV kvs "message").getD (Json.obj []) with
    | Json.obj kvs2 => .ok ((lookupKV kvs2 "text").getD (Json.str ""))
    | v => .error (attrErrorGet v)
  | .ok v => .error (attrErrorGet v)

/-- Python `str()` applied to the value extracted from the body (the
extracted question is interpolated into the prompt template, which
stringifies it). `repr`-style rendering for container elements. -/
def pyStrOfJson : Json → String
  | .str s => s
  | .null => "None"
  | .bool b => cond b "True" "False"
  | .num n => toString n
  | .arr _ => "[...]"
  | .obj _ => "\x7b...\x7d"

/-- The whitespace characters stripped by Python `str.strip()` (ASCII). -/
def pyIsSpace (c : Char) : Bool :=
  c == ' ' || c == '\t' || c == '\n' || c == '\x0d' || c == '\x0b' || c == '\x0c'

/-- Python `chunk.strip()`: leading and trailing whitespace removed.
The delivery loop only tests its truthiness (non-emptiness). -/
def pyStrip (s : List Char) : List Char :=
  ((s.dropWhile pyIsSpace).reverse.dropWhile pyIsSpace).reverse

/-- A character `urllib.parse.quote_plus` leaves unencoded
(letters, digits, `_`, `.`, `-`, `~`). -/
def isAlwaysSafe (c : Char) : Bool :=
  ('a' ≤ c && c ≤ 'z') || ('A' ≤ c && c ≤ 'Z') || ('0' ≤ c && c ≤ '9') ||
    c == '_' || c == '.' || c == '-' || c == '~'

/-- Upper-case hexadecimal digit for a value below 16. -/
def hexDigit (n : Nat) : Char :=
  if n < 10 then Char.ofNat (48 + n) else Char.ofNat (65 + (n - 10))

/-- Percent-escape `%XX` of one byte. -/
def percentByte (b : Nat) : String :=
  "%" ++ String.singleton (hexDigit (b / 16)) ++ String.singleton (hexDigit (b % 16))

/-- The UTF-8 byte sequence of one code point. -/
def utf8Bytes (c : Char) : List Nat :=
  let n := c.toNat
  if n < 128 then [n]
  else if n < 2048 then [192 + n / 64, 128 + n % 64]
  else if n < 65536 then [224 + n / 4096, 128 + (n / 64) % 64, 128 + n % 64]
  else [240 + n / 262144, 128 + (n / 4096) % 64, 128 + (n / 64) % 64, 128 + n % 64]

/-- Embedding of `urllib.parse.quote_plus`: safe characters kept, space becomes `+`,
every other character percent-encoded byte by byte (UTF-8). -/
def quotePlus (cs : List Char) : String :=
  String.join (cs.map fun c =>
    if isAlwaysSafe c then String.singleton c
    else if c == ' ' then "+"
    else String.join ((utf8Bytes c).map percentByte))

/-- Python `str()` of an environment lookup: the value, or the literal
`None` when the variable is unset (`os.environ.get` returned `None`). -/
def pyFormat (o : Option String) : String :=
  match o with
  | some s => s
  | none => "None"

/-- The request URL built at lambda_handler.py line 59.  Note the stray
`>` between the chat id and `&text=`, exactly as in the source f-string. -/
def apiUrl (token chatId : Option String) (encodedChunk : String) : String :=
  "https://api.telegram.org/bot" ++ pyFormat token ++ "/sendMessage?chat_id=" ++
    pyFormat chatId ++ ">&text=" ++ encodedChunk

/-- The chunk list of lambda_handler.py line 54:
`[message[i:i + 4096] for i in range(0, len(message), 4096)]`.
`range(0, L, 4096)` has `ceil(L/4096)` elements, the `k`-th being
`4096*k`, and `message[i:i+4096]` is `take 4096` of `drop i`. -/
def messageChunks (message : List Char) : List (List Char) :=
  (List.range ((message.length + 4095) / 4096)).map
    (fun k => (message.drop (4096 * k)).take 4096)

/-- The delivery loop of lambda_handler.py lines 55-62 over an already
computed chunk list, parameterised by the `requests.post` oracle.
Returns the URLs actually posted, in order, and either `.ok ()` or the
first exception raised by a post (which the loop does not catch). -/
def sendLoop (post : String → Except PyErr String) (token chatId : Option String) :
    List (List Char) → List String × Except PyErr Unit
  | [] => ([], Except.ok ())
  | chunk :: rest =>
    if (pyStrip chunk).isEmpty then sendLoop post token chatId rest
    else
      let url := apiUrl token chatId (quotePlus chunk)
      match post url with
      | .error e => ([url], Except.error e)
      | .ok _ =>
        let r := sendLoop post token chatId rest
        (url :: r.1, r.2)

/-- Embedding of `send_telegram_message` (lambda_handler.py lines 48-62): chunk the
message, then run the delivery loop. -/
def send_telegram_message (post : String → Except PyErr String)
    (token chatId : Option String) (message : List Char) :
    List String × Except PyErr Unit :=
  sendLoop post token chatId (messageChunks message)

/-- A `requests.post` oracle that always succeeds. -/
def okPost : String → Except PyErr String := fun _ => Except.ok "ok"

/-- The calls the loop issues when every post succeeds: one per chunk
that is non-empty after stripping, in chunk order. -/
def deliveredCalls (token chatId : Option String) (cs : List (List Char)) : List String :=
  (cs.filter fun c => !(pyStrip c).isEmpty).map
    (fun c => apiUrl token chatId (quotePlus c))

/-- One conversation turn: the question asked and the answer returned. -/
abbrev Turn := String × String

/-- The transcript string `ConversationBufferMemory` substitutes for
`{chat_history}` in the prompt: each stored turn rendered as a
`Human:` line followed by an `AI:` line, all joined by newlines; an
empty buffer renders as the empty string.  Modelled from the library
contract of `ConversationBufferMemory(memory_key="chat_history")`
(lambda_handler.py line 11), whose implementation is outside the
repository. -/
def renderTranscript (mem : List Turn) : String :=
  String.intercalate "\n" (mem.map fun t => "Human: " ++ t.1 ++ "\nAI: " ++ t.2)

/-- Embedding of `invoke_model` (lambda_handler.py lines 19-37), parameterised by the
hosted model as an oracle taking the question and the rendered
`chat_history`.  The `LLMChain` call loads the transcript from `memory`,
invokes the model, and on success saves the new (question, answer) turn
into `memory` before returning `model_response["text"]`; on failure the
exception propagates and nothing is appended.  The module-level `memory`
is threaded explicitly. -/
def invoke_model (model : String → String → Except PyErr String)
    (mem : List Turn) (question : String) : Except PyErr (String × List Turn) :=
  match model question (renderTranscript mem) with
  | .error e => .error e
  | .ok ans => .ok (ans, mem ++ [(question, ans)])

/-- An HTTP-style response object: `statusCode` plus the object that is
`json.dumps`-ed into the body. -/
structure Response where
  statusCode : Nat
  body : Json

/-- Embedding of `create_response` (lambda_handler.py lines 40-45):
status 200, body `{'message': message}`. -/
def create_response (message : String) : Response :=
  ⟨200, Json.obj [("message", Json.str message)]⟩

/-- Everything observable about one `handler` invocation: the URLs
posted to the chat platform in order, the final contents of the
module-level `memory`, and either the returned response or a Python
exception that escaped the handler (an unhandled fault). -/
structure HandlerOut where
  trace : List String
  mem : List Turn
  result : Except PyErr Response

/-- The `except` block of `handler` (lambda_handler.py lines 72-79):
`send_telegram_message(error_message)` — which is NOT wrapped in a
nested try, so a post failure there re-raises — then, if that call
returned, the 500 response with body `{'message': error_message}`. -/
def exceptBlock (post : String → Except PyErr String) (token chatId : Option String)
    (e : PyErr) : List String × Except PyErr Response :=
  let r := send_telegram_message post token chatId e.msg.data
  match r.2 with
  | .error e2 => (r.1, .error e2)
  | .ok _ => (r.1, .ok ⟨500, Json.obj [("message", Json.str e.msg)]⟩)

/-- Embedding of `handler` (lambda_handler.py lines 65-79): extract the message,
invoke the model, deliver the answer, return the 200 response; any
exception from those steps is caught once and routed through
`exceptBlock`.  `body` is the outcome of `json.loads(event['body'])`. -/
def handler (post : String → Except PyErr String)
    (model : String → String → Except PyErr String)
    (token chatId : Option String) (mem : List Turn)
    (body : Except PyErr Json) : HandlerOut :=
  match extract_message body with
  | .error e =>
    let r := exceptBlock post token chatId e
    ⟨r.1, mem, r.2⟩
  | .ok qj =>
    match invoke_model model mem (pyStrOfJson qj) with
    | .error e =>
      let r := exceptBlock post token chatId e
      ⟨r.1, mem, r.2⟩
    | .ok (ans, mem') =>
      let s := send_telegram_message post token chatId ans.data
      match s.2 with
      | .error e =>
        let r := exceptBlock post token chatId e
        ⟨s.1 ++ r.1, mem', r.2⟩
      | .ok _ => ⟨s.1, mem', .ok (create_response ans)⟩

/-! ## Basic lemmas about chunking and the delivery loop -/

theorem messageChunks_length (m : List Char) :
    (messageChunks m).length = (m.length + 4095) / 4096 := by
  simp [messageChunks]

theorem messageChunks_getD (m : List Char) (k : Nat)
    (h : k < (messageChunks m).length) :
    (messageChunks m).getD k [] = (m.drop (4096 * k)).take 4096 := by
  simp [messageChunks_length] at h
  simp [messageChunks, List.getD_eq_getElem?_getD, List.getElem?_map, List.getElem?_range h]

theorem messageChunks_cons (m : List Char) (h : m ≠ []) :
    messageChunks m = m.take 4096 :: messageChunks (m.drop 4096) := by
  have hl : 0 < m.length := List.length_pos.mpr h
  have hcount : (m.length + 4095) / 4096 = ((m.drop 4096).length + 4095) / 4096 + 1 := by
    simp only [List.length_drop]
    omega
  unfold messageChunks
  rw [hcount, List.range_succ_eq_map, List.map_cons, List.map_map]
  refine congrArg₂ List.cons (by norm_num) ?_
  refine List.map_congr_left fun k _ => ?_
  simp only [Function.comp_apply, List.drop_drop]
  have he : 4096 + 4096 * k = 4096 * Nat.succ k := by omega
  rw [he]

theorem messageChunks_flatten (m : List Char) : (messageChunks m).flatten = m := by
  by_cases h : m = []
  · subst h; rfl
  · rw [messageChunks_cons m h, List.flatten_cons,
      messageChunks_flatten (m.drop 4096), List.take_append_drop]
termination_by m.length
decreasing_by
  simp only [List.length_drop]
  have : 0 < m.length := List.length_pos.mpr h
  omega

theorem sendLoop_okPost (token chatId : Option String) (cs : List (List Char)) :
    sendLoop okPost token chatId cs = (deliveredCalls token chatId cs, Except.ok ()) := by
  induction cs with
  | nil => rfl
  | cons c rest ih =>
    by_cases hc : (pyStrip c).isEmpty
    · simpa [sendLoop, deliveredCalls, hc] using ih
    · simp only [deliveredCalls] at ih
      simp [sendLoop, deliveredCalls, hc, okPost, ih]

/-- If every post on the chunks before `c` succeeds, `c` survives the
strip test and its post raises `e`, then the loop stops at `c` and the
exception propagates out of `sendLoop` uncaught. -/
theorem sendLoop_fail (post : String → Except PyErr String)
    (token chatId : Option String) (pre rest : List (List Char)) (c : List Char) (e : PyErr)
    (hpre : ∀ d ∈ pre, post (apiUrl token chatId (quotePlus d)) = .ok "ok")
    (hc : (pyStrip c).isEmpty = false)
    (hfail : post (apiUrl token chatId (quotePlus c)) = .error e) :
    (sendLoop post token chatId (pre ++ c :: rest)).2 = .error e := by
  induction pre with
  | nil =>
    simp only [List.nil_append, sendLoop, hc, Bool.false_eq_true, if_false, hfail]
  | cons d pre ih =>
    have hd := hpre d (List.mem_cons_self d pre)
    have hrest : ∀ d ∈ pre, post (apiUrl token chatId (quotePlus d)) = .ok "ok" :=
      fun d hdm => hpre d (List.mem_cons_of_mem _ hdm)
    by_cases hds : (pyStrip d).isEmpty
    · simpa [sendLoop, hds] using ih hrest
    · simpa [sendLoop, hds, hd] using ih hrest

/-- Every URL the delivery loop ever posts belongs to a chunk that is
non-empty after stripping. -/
theorem sendLoop_calls_sound (post : String → Except PyErr String)
    (token chatId : Option String) (cs : List (List Char)) (url : String)
    (hmem : url ∈ (sendLoop post token chatId cs).1) :
    ∃ c ∈ cs, (pyStrip c).isEmpty = false ∧ url = apiUrl token chatId (quotePlus c) := by
  induction cs with
  | nil => simp [sendLoop] at hmem
  | cons c rest ih =>
    by_cases hc : (pyStrip c).isEmpty
    · simp only [sendLoop, hc, if_true] at hmem
      obtain ⟨d, hd, hds, hurl⟩ := ih hmem
      exact ⟨d, List.mem_cons_of_mem _ hd, hds, hurl⟩
    · rcases hp : post (apiUrl token chatId (quotePlus c)) with e | s
      · simp only [sendLoop, hc, Bool.false_eq_true, if_false, hp, List.mem_singleton] at hmem
        exact ⟨c, List.mem_cons_self c rest, Bool.not_eq_true _ ▸ hc, hmem⟩
      · simp only [sendLoop, hc, Bool.false_eq_true, if_false, hp, List.mem_cons] at hmem
        rcases hmem with hmem | hmem
        · exact ⟨c, List.mem_cons_self c rest, Bool.not_eq_true _ ▸ hc, hmem⟩
        · obtain ⟨d, hd, hds, hurl⟩ := ih hmem
          exact ⟨d, List.mem_cons_of_mem _ hd, hds, hurl⟩

/-! ## Claims -/

/-- C3 counterexample: the claim says extraction may raise only for a
non-parseable body, but the body `"[]"` parses (to a JSON array) and
extraction still raises an `AttributeError`, because a Python list has
no `.get` method. -/
theorem claim3_counterexample :
    extract_message (.ok (Json.arr [])) =
      .error ⟨"AttributeError: list object has no attribute get"⟩ := rfl

/-- C3 amended: when the parsed body is a JSON object whose `message`
key is absent, or maps to an object without a `text` key, extraction
returns the empty string and raises no exception.  (For a parseable
body that is not an object, or whose `message` value is not an object,
extraction raises `AttributeError`.) -/
theorem claim3_amended (kvs : List (String × Json))
    (h : lookupKV kvs "message" = none ∨
      ∃ kvs2, lookupKV kvs "message" = some (Json.obj kvs2) ∧ lookupKV kvs2 "text" = none) :
    extract_message (.ok (Json.obj kvs)) = .ok (Json.str "") := by
  rcases h with h | ⟨kvs2, h, h2⟩
  · simp [extract_message, h, lookupKV]
  · simp [extract_message, h, h2]

/-- Witness for C3 amended at the body `{"message": {}}`. -/
theorem claim3_amended_witness :
    (lookupKV [("message", Json.obj [])] "message" = none ∨
      ∃ kvs2, lookupKV [("message", Json.obj [])] "message" = some (Json.obj kvs2) ∧
        lookupKV kvs2 "text" = none) ∧
    extract_message (.ok (Json.obj [("message", Json.obj [])])) = .ok (Json.str "") :=
  ⟨Or.inr ⟨[], rfl, rfl⟩, claim3_amended _ (Or.inr ⟨[], rfl, rfl⟩)⟩

/-- C4: the URL actually built for a delivered chunk.  With
`TELEGRAM_TOKEN=TOKEN`, `TELEGRAM_CHAT_ID=42` and message `"hi"`, the
single call goes to
`https://api.telegram.org/botTOKEN/sendMessage?chat_id=42>&text=hi` —
a stray `>` sits between the chat id and `&text=`, so the request URL
does not match the claimed
`https://api.<platform>/bot<TOKEN>/sendMessage?chat_id=<ID>&text=<chunk>`
shape (and the source issues it with `requests.post`, not GET). -/
theorem claim4_url_stray_gt :
    send_telegram_message okPost (some "TOKEN") (some "42") "hi".data =
      (["https://api.telegram.org/botTOKEN/sendMessage?chat_id=42>&text=hi"],
        Except.ok ()) := rfl

/-- C5: chunk `k` covers characters `[4096*k, 4096*(k+1))` of the
message; when no chunk is entirely whitespace, delivery issues
`ceil(L/4096)` calls; and concatenating the chunks in order reproduces
the message exactly. -/
theorem claim5_chunking (token chatId : Option String) (msg : List Char)
    (h : ∀ c ∈ messageChunks msg, (pyStrip c).isEmpty = false) :
    (∀ k, k < (messageChunks msg).length →
      (messageChunks msg).getD k [] = (msg.drop (4096 * k)).take 4096) ∧
    (send_telegram_message okPost token chatId msg).1.length =
      (msg.length + 4096 - 1) / 4096 ∧
    (messageChunks msg).flatten = msg := by
  refine ⟨fun k hk => messageChunks_getD msg k hk, ?_, messageChunks_flatten msg⟩
  have hfilter : (messageChunks msg).filter (fun c => !(pyStrip c).isEmpty) =
      messageChunks msg :=
    List.filter_eq_self.mpr fun c hc => by simp [h c hc]
  rw [send_telegram_message, sendLoop_okPost]
  simp only [deliveredCalls, hfilter, List.length_map, messageChunks_length]
  norm_num

/-- Witness for C5 at the two-character message `"ab"`. -/
theorem claim5_chunking_witness :
    (∀ c ∈ messageChunks "ab".data, (pyStrip c).isEmpty = false) ∧
    ((∀ k, k < (messageChunks "ab".data).length →
      (messageChunks "ab".data).getD k [] = ("ab".data.drop (4096 * k)).take 4096) ∧
    (send_telegram_message okPost (some "T") (some "C") "ab".data).1.length =
      ("ab".data.length + 4096 - 1) / 4096 ∧
    (messageChunks "ab".data).flatten = "ab".data) :=
  ⟨by decide, claim5_chunking (some "T") (some "C") "ab".data (by decide)⟩

/-- C6: a chunk that is empty or whitespace-only after stripping is
never delivered — every URL the loop posts, under any post oracle,
belongs to a chunk that is non-empty after stripping. -/
theorem claim6_whitespace_never_delivered (post : String → Except PyErr String)
    (token chatId : Option String) (msg : List Char) (url : String)
    (hmem : url ∈ (send_telegram_message post token chatId msg).1) :
    ∃ c ∈ messageChunks msg, (pyStrip c).isEmpty = false ∧
      url = apiUrl token chatId (quotePlus c) :=
  sendLoop_calls_sound post token chatId (messageChunks msg) url hmem

/-- Witness for C6 at the message `" hi"` whose one call is for the
chunk `" hi"` (non-empty after stripping). -/
theorem claim6_whitespace_never_delivered_witness :
    "https://api.telegram.org/botT/sendMessage?chat_id=C>&text=+hi" ∈
      (send_telegram_message okPost (some "T") (some "C") " hi".data).1 ∧
    ∃ c ∈ messageChunks " hi".data, (pyStrip c).isEmpty = false ∧
      "https://api.telegram.org/botT/sendMessage?chat_id=C>&text=+hi" =
        apiUrl (some "T") (some "C") (quotePlus c) :=
  ⟨by decide, claim6_whitespace_never_delivered okPost (some "T") (some "C")
    " hi".data _ (by decide)⟩

/-- C10: with both environment variables unset, delivery raises nothing
— it still issues one call per non-whitespace chunk, and the URL
carries the literal text `None` where the token and the chat id would
appear. -/
theorem claim10_unset_env_sends_None (msg : List Char) (enc : String) :
    (send_telegram_message okPost none none msg).2 = Except.ok () ∧
    (send_telegram_message okPost none none msg).1 =
      deliveredCalls none none (messageChunks msg) ∧
    apiUrl none none enc =
      "https://api.telegram.org/botNone/sendMessage?chat_id=None>&text=" ++ enc := by
  rw [send_telegram_message, sendLoop_okPost]
  exact ⟨rfl, rfl, rfl⟩

/-- A concrete inbound body `{"message": {"text": "q"}}` used to
instantiate handler theorems. -/
def eventBody : Except PyErr Json :=
  .ok (Json.obj [("message", Json.obj [("text", Json.str "q")])])

/-- A model oracle that always answers `hi`. -/
def wModel : String → String → Except PyErr String := fun _ _ => .ok "hi"

/-- A post oracle that fails with `net` exactly on the URL that the
chunk `hi` is sent to, and succeeds elsewhere. -/
def wPost : String → Except PyErr String := fun url =>
  if url = apiUrl (some "T") (some "C") (quotePlus "hi".data) then .error ⟨"net"⟩
  else .ok "ok"

/-! ### Unfolding lemmas for the handler, one per control path -/

theorem exceptBlock_ok (post : String → Except PyErr String)
    (token chatId : Option String) (e : PyErr)
    (h : (send_telegram_message post token chatId e.msg.data).2 = Except.ok ()) :
    exceptBlock post token chatId e =
      ((send_telegram_message post token chatId e.msg.data).1,
        .ok ⟨500, Json.obj [("message", Json.str e.msg)]⟩) := by
  unfold exceptBlock
  simp only [h]

theorem exceptBlock_error (post : String → Except PyErr String)
    (token chatId : Option String) (e e2 : PyErr)
    (h : (send_telegram_message post token chatId e.msg.data).2 = .error e2) :
    exceptBlock post token chatId e =
      ((send_telegram_message post token chatId e.msg.data).1, .error e2) := by
  unfold exceptBlock
  simp only [h]

theorem handler_extract_error (post : String → Except PyErr String)
    (model : String → String → Except PyErr String)
    (token chatId : Option String) (mem : List Turn) (body : Except PyErr Json) (e : PyErr)
    (h : extract_message body = .error e) :
    handler post model token chatId mem body =
      ⟨(exceptBlock post token chatId e).1, mem, (exceptBlock post token chatId e).2⟩ := by
  unfold handler
  rw [h]

theorem handler_invoke_error (post : String → Except PyErr String)
    (model : String → String → Except PyErr String)
    (token chatId : Option String) (mem : List Turn) (body : Except PyErr Json)
    (qj : Json) (e : PyErr)
    (hq : extract_message body = .ok qj)
    (hinv : invoke_model model mem (pyStrOfJson qj) = .error e) :
    handler post model token chatId mem body =
      ⟨(exceptBlock post token chatId e).1, mem, (exceptBlock post token chatId e).2⟩ := by
  unfold handler
  rw [hq]
  simp only [hinv]

theorem handler_send_error (post : String → Except PyErr String)
    (model : String → String → Except PyErr String)
    (token chatId : Option String) (mem : List Turn) (body : Except PyErr Json)
    (qj : Json) (ans : String) (mem' : List Turn) (e : PyErr)
    (hq : extract_message body = .ok qj)
    (hinv : invoke_model model mem (pyStrOfJson qj) = .ok (ans, mem'))
    (hs : (send_telegram_message post token chatId ans.data).2 = .error e) :
    handler post model token chatId mem body =
      ⟨(send_telegram_message post token chatId ans.data).1 ++
          (exceptBlock post token chatId e).1,
        mem', (exceptBlock post token chatId e).2⟩ := by
  unfold handler
  rw [hq]
  simp only [hinv, hs]

theorem handler_send_ok (post : String → Except PyErr String)
    (model : String → String → Except PyErr String)
    (token chatId : Option String) (mem : List Turn) (body : Except PyErr Json)
    (qj : Json) (ans : String) (mem' : List Turn)
    (hq : extract_message body = .ok qj)
    (hinv : invoke_model model mem (pyStrOfJson qj) = .ok (ans, mem'))
    (hs : (send_telegram_message post token chatId ans.data).2 = Except.ok ()) :
    handler post model token chatId mem body =
      ⟨(send_telegram_message post token chatId ans.data).1, mem',
        .ok (create_response ans)⟩ := by
  unfold handler
  rw [hq]
  simp only [hinv, hs]

/-- A first-stage exception: the run of extraction, model invocation or
answer delivery raised `e`. -/
def stageRaised (post : String → Except PyErr String)
    (model : String → String → Except PyErr String)
    (token chatId : Option String) (mem : List Turn)
    (body : Except PyErr Json) (e : PyErr) : Prop :=
  extract_message body = .error e ∨
  (∃ qj, extract_message body = .ok qj ∧
    invoke_model model mem (pyStrOfJson qj) = .error e) ∨
  (∃ qj ans mem', extract_message body = .ok qj ∧
    invoke_model model mem (pyStrOfJson qj) = .ok (ans, mem') ∧
    (send_telegram_message post token chatId ans.data).2 = .error e)

/-- C1: when extraction, model invocation or delivery raises `e` and the
error-notification delivery itself returns, the handler returns the 500
response with body `{message: str(e)}`, and its outbound trace ends
with exactly the calls that delivering `str(e)` to the chat issues. -/
theorem claim1_failure_notifies_and_returns_500
    (post : String → Except PyErr String)
    (model : String → String → Except PyErr String)
    (token chatId : Option String) (mem : List Turn)
    (body : Except PyErr Json) (e : PyErr)
    (hfail : stageRaised post model token chatId mem body e)
    (hnotify : (send_telegram_message post token chatId e.msg.data).2 = Except.ok ()) :
    (handler post model token chatId mem body).result =
      .ok ⟨500, Json.obj [("message", Json.str e.msg)]⟩ ∧
    ∃ tr0, (handler post model token chatId mem body).trace =
      tr0 ++ (send_telegram_message post token chatId e.msg.data).1 := by
  rcases hfail with h1 | ⟨qj, h1, h2⟩ | ⟨qj, ans, mem', h1, h2, h3⟩
  · rw [handler_extract_error post model token chatId mem body e h1,
      exceptBlock_ok post token chatId e hnotify]
    exact ⟨rfl, [], rfl⟩
  · rw [handler_invoke_error post model token chatId mem body qj e h1 h2,
      exceptBlock_ok post token chatId e hnotify]
    exact ⟨rfl, [], rfl⟩
  · rw [handler_send_error post model token chatId mem body qj ans mem' e h1 h2 h3,
      exceptBlock_ok post token chatId e hnotify]
    exact ⟨rfl, (send_telegram_message post token chatId ans.data).1, rfl⟩

/-- Witness for C1: the model raises `boom`, every post succeeds; the
handler returns 500 with body `{message: boom}` and posts the `boom`
notification. -/
theorem claim1_witness :
    stageRaised okPost (fun _ _ => .error ⟨"boom"⟩) (some "T") (some "C") []
      (.ok (Json.obj [])) ⟨"boom"⟩ ∧
    (send_telegram_message okPost (some "T") (some "C") "boom".data).2 = Except.ok () ∧
    ((handler okPost (fun _ _ => .error ⟨"boom"⟩) (some "T") (some "C") []
        (.ok (Json.obj []))).result =
      .ok ⟨500, Json.obj [("message", Json.str "boom")]⟩ ∧
    ∃ tr0, (handler okPost (fun _ _ => .error ⟨"boom"⟩) (some "T") (some "C") []
        (.ok (Json.obj []))).trace =
      tr0 ++ (send_telegram_message okPost (some "T") (some "C") "boom".data).1) :=
  ⟨Or.inr (Or.inl ⟨Json.str "", rfl, rfl⟩), rfl,
    claim1_failure_notifies_and_returns_500 okPost (fun _ _ => .error ⟨"boom"⟩)
      (some "T") (some "C") [] (.ok (Json.obj [])) ⟨"boom"⟩
      (Or.inr (Or.inl ⟨Json.str "", rfl, rfl⟩)) rfl⟩

/-- C2 counterexample: the model raises `model down` and every post
raises `net down`; the claim says the secondary delivery exception is
swallowed and the 500 response still returned, but the handler instead
lets `net down` escape as an unhandled fault. -/
theorem claim2_counterexample :
    (handler (fun _ => .error ⟨"net down"⟩) (fun _ _ => .error ⟨"model down"⟩)
      (some "T") (some "C") [] (.ok (Json.obj []))).result =
      .error ⟨"net down"⟩ := rfl

/-- C2 amended: a secondary exception raised while delivering the
error notification is NOT swallowed — it propagates out of the handler
as an unhandled fault, and the 500 failure response is returned only
when the notification delivery raises nothing. -/
theorem claim2_amended_secondary_failure_propagates
    (post : String → Except PyErr String)
    (model : String → String → Except PyErr String)
    (token chatId : Option String) (mem : List Turn)
    (body : Except PyErr Json) (e e2 : PyErr)
    (hfail : stageRaised post model token chatId mem body e)
    (hnotify : (send_telegram_message post token chatId e.msg.data).2 = .error e2) :
    (handler post model token chatId mem body).result = .error e2 := by
  rcases hfail with h1 | ⟨qj, h1, h2⟩ | ⟨qj, ans, mem', h1, h2, h3⟩
  · rw [handler_extract_error post model token chatId mem body e h1,
      exceptBlock_error post token chatId e e2 hnotify]
  · rw [handler_invoke_error post model token chatId mem body qj e h1 h2,
      exceptBlock_error post token chatId e e2 hnotify]
  · rw [handler_send_error post model token chatId mem body qj ans mem' e h1 h2 h3,
      exceptBlock_error post token chatId e e2 hnotify]

/-- Witness for C2 amended: the scenario of the counterexample,
discharged through the amended theorem. -/
theorem claim2_amended_witness :
    stageRaised (fun _ => .error ⟨"net down"⟩) (fun _ _ => .error ⟨"model down"⟩)
      (some "T") (some "C") [] (.ok (Json.obj [])) ⟨"model down"⟩ ∧
    (send_telegram_message (fun _ => .error ⟨"net down"⟩) (some "T") (some "C")
      "model down".data).2 = .error ⟨"net down"⟩ ∧
    (handler (fun _ => .error ⟨"net down"⟩) (fun _ _ => .error ⟨"model down"⟩)
      (some "T") (some "C") [] (.ok (Json.obj []))).result = .error ⟨"net down"⟩ :=
  ⟨Or.inr (Or.inl ⟨Json.str "", rfl, rfl⟩), rfl,
    claim2_amended_secondary_failure_propagates _ _ (some "T") (some "C") []
      (.ok (Json.obj [])) ⟨"model down"⟩ ⟨"net down"⟩
      (Or.inr (Or.inl ⟨Json.str "", rfl, rfl⟩)) rfl⟩

/-- C8: if the posts for the delivered chunks before `c` succeed, `c`
survives the strip test and its post raises `e`, then
`send_telegram_message` re-raises `e` (nothing in the loop catches it),
and the handler's outcome is exactly the outcome of its `except` block
on `e` — the failure reaches the orchestrator's failure path. -/
theorem claim8_delivery_failure_surfaced
    (post : String → Except PyErr String)
    (model : String → String → Except PyErr String)
    (token chatId : Option String) (mem : List Turn) (body : Except PyErr Json)
    (qj : Json) (ans : String) (mem' : List Turn)
    (pre rest : List (List Char)) (c : List Char) (e : PyErr)
    (hq : extract_message body = .ok qj)
    (hinv : invoke_model model mem (pyStrOfJson qj) = .ok (ans, mem'))
    (hsplit : messageChunks ans.data = pre ++ c :: rest)
    (hpre : ∀ d ∈ pre, post (apiUrl token chatId (quotePlus d)) = .ok "ok")
    (hc : (pyStrip c).isEmpty = false)
    (hfail : post (apiUrl token chatId (quotePlus c)) = .error e) :
    (send_telegram_message post token chatId ans.data).2 = .error e ∧
    (handler post model token chatId mem body).result =
      (exceptBlock post token chatId e).2 := by
  have hs : (send_telegram_message post token chatId ans.data).2 = .error e := by
    rw [send_telegram_message, hsplit]
    exact sendLoop_fail post token chatId pre rest c e hpre hc hfail
  refine ⟨hs, ?_⟩
  rw [handler_send_error post model token chatId mem body qj ans mem' e hq hinv hs]

/-- Witness for C8: a one-chunk answer whose post fails with `net`,
while the notification posts succeed. -/
theorem claim8_witness :
    extract_message (eventBody) = .ok (Json.str "q") ∧
    invoke_model wModel [] "q" = .ok ("hi", [("q", "hi")]) ∧
    messageChunks "hi".data = [] ++ "hi".data :: [] ∧
    (∀ d ∈ ([] : List (List Char)), wPost (apiUrl (some "T") (some "C") (quotePlus d)) = .ok "ok") ∧
    (pyStrip "hi".data).isEmpty = false ∧
    wPost (apiUrl (some "T") (some "C") (quotePlus "hi".data)) = .error ⟨"net"⟩ ∧
    ((send_telegram_message wPost (some "T") (some "C") "hi".data).2 = .error ⟨"net"⟩ ∧
      (handler wPost wModel (some "T") (some "C") [] eventBody).result =
        (exceptBlock wPost (some "T") (some "C") ⟨"net"⟩).2) :=
  ⟨rfl, rfl, by decide, fun d hd => absurd hd (List.not_mem_nil d), by decide, rfl,
    claim8_delivery_failure_surfaced wPost wModel (some "T") (some "C") []
      eventBody (Json.str "q") "hi" [("q", "hi")] [] [] "hi".data ⟨"net"⟩
      rfl rfl (by decide) (fun d hd => absurd hd (List.not_mem_nil d)) (by decide) rfl⟩

/-- C9: the new turn is appended to memory inside `invoke_model`,
before delivery starts; when delivery of the answer then fails and the
handler returns its 500 response, the turn is still in the final
memory — nothing rolls it back. -/
theorem claim9_memory_kept_on_delivery_failure
    (post : String → Except PyErr String)
    (model : String → String → Except PyErr String)
    (token chatId : Option String) (mem : List Turn) (body : Except PyErr Json)
    (qj : Json) (ans : String) (mem' : List Turn) (e : PyErr)
    (hq : extract_message body = .ok qj)
    (hinv : invoke_model model mem (pyStrOfJson qj) = .ok (ans, mem'))
    (hfail : (send_telegram_message post token chatId ans.data).2 = .error e)
    (hnotify : (send_telegram_message post token chatId e.msg.data).2 = Except.ok ()) :
    mem' = mem ++ [(pyStrOfJson qj, ans)] ∧
    (handler post model token chatId mem body).mem = mem ++ [(pyStrOfJson qj, ans)] ∧
    (handler post model token chatId mem body).result =
      .ok ⟨500, Json.obj [("message", Json.str e.msg)]⟩ := by
  have hmem : mem' = mem ++ [(pyStrOfJson qj, ans)] := by
    unfold invoke_model at hinv
    rcases hm : model (pyStrOfJson qj) (renderTranscript mem) with e' | a
    · rw [hm] at hinv; exact absurd hinv (by simp)
    · rw [hm] at hinv
      simp only [Except.ok.injEq, Prod.mk.injEq] at hinv
      rw [← hinv.2, ← hinv.1]
  refine ⟨hmem, ?_, ?_⟩
  · rw [handler_send_error post model token chatId mem body qj ans mem' e hq hinv hfail]
    exact hmem
  · rw [handler_send_error post model token chatId mem body qj ans mem' e hq hinv hfail,
      exceptBlock_ok post token chatId e hnotify]

/-- Witness for C9: one-chunk answer `hi` whose post fails, notification
posts succeed; the turn `(q, hi)` is retained and 500 returned. -/
theorem claim9_witness :
    extract_message eventBody = .ok (Json.str "q") ∧
    invoke_model wModel [] "q" = .ok ("hi", [("q", "hi")]) ∧
    (send_telegram_message wPost (some "T") (some "C") "hi".data).2 = .error ⟨"net"⟩ ∧
    (send_telegram_message wPost (some "T") (some "C") "net".data).2 = Except.ok () ∧
    ([("q", "hi")] = [] ++ [("q", "hi")] ∧
      (handler wPost wModel (some "T") (some "C") [] eventBody).mem = [] ++ [("q", "hi")] ∧
      (handler wPost wModel (some "T") (some "C") [] eventBody).result =
        .ok ⟨500, Json.obj [("message", Json.str "net")]⟩) :=
  ⟨rfl, rfl, rfl, rfl,
    claim9_memory_kept_on_delivery_failure wPost wModel (some "T") (some "C") []
      eventBody (Json.str "q") "hi" [("q", "hi")] ⟨"net"⟩ rfl rfl rfl rfl⟩

/-! ### Warm-context request cycles (for C7) -/

/-- The inbound body of a request asking `q`:
`{"message": {"text": q}}`. -/
def eventOf (q : String) : Except PyErr Json :=
  .ok (Json.obj [("message", Json.obj [("text", Json.str q)])])

/-- A model oracle that never raises, answering `modelFn q transcript`. -/
def totalModel (modelFn : String → String → String) : String → String → Except PyErr String :=
  fun q h => .ok (modelFn q h)

/-- N successive requests served by one warm context: the handler runs
once per question, threading the module-level memory from each
invocation to the next; all posts succeed and the model never raises,
so every cycle is successful. -/
def runHandlers (modelFn : String → String → String) (token chatId : Option String)
    (mem : List Turn) : List String → List Turn
  | [] => mem
  | q :: qs =>
    runHandlers modelFn token chatId
      (handler okPost (totalModel modelFn) token chatId mem (eventOf q)).mem qs

/-- The (question, answer) pairs the conversation should accumulate:
each answer is the model's reply to its question given the transcript
of all turns recorded before it. -/
def idealTurns (modelFn : String → String → String) (mem : List Turn) :
    List String → List Turn
  | [] => []
  | q :: qs =>
    (q, modelFn q (renderTranscript mem)) ::
      idealTurns modelFn (mem ++ [(q, modelFn q (renderTranscript mem))]) qs

/-- One successful cycle appends exactly one turn: the question and the
model's answer to it given the transcript of the memory so far. -/
theorem handler_cycle_mem (modelFn : String → String → String)
    (token chatId : Option String) (mem : List Turn) (q : String) :
    (handler okPost (totalModel modelFn) token chatId mem (eventOf q)).mem =
      mem ++ [(q, modelFn q (renderTranscript mem))] := by
  have hq : extract_message (eventOf q) = .ok (Json.str q) := rfl
  have hinv : invoke_model (totalModel modelFn) mem (pyStrOfJson (Json.str q)) =
      .ok (modelFn q (renderTranscript mem),
        mem ++ [(q, modelFn q (renderTranscript mem))]) := rfl
  have hs : (send_telegram_message okPost token chatId
      (modelFn q (renderTranscript mem)).data).2 = Except.ok () := by
    rw [send_telegram_message, sendLoop_okPost]
  rw [handler_send_ok okPost (totalModel modelFn) token chatId mem (eventOf q)
    (Json.str q) (modelFn q (renderTranscript mem))
    (mem ++ [(q, modelFn q (renderTranscript mem))]) hq hinv hs]

theorem runHandlers_eq_idealTurns (modelFn : String → String → String)
    (token chatId : Option String) (qs : List String) (mem : List Turn) :
    runHandlers modelFn token chatId mem qs = mem ++ idealTurns modelFn mem qs := by
  induction qs generalizing mem with
  | nil => simp [runHandlers, idealTurns]
  | cons q qs ih =>
    rw [runHandlers, handler_cycle_mem, ih, idealTurns]
    simp

theorem idealTurns_map_fst (modelFn : String → String → String)
    (qs : List String) (mem : List Turn) :
    (idealTurns modelFn mem qs).map Prod.fst = qs := by
  induction qs generalizing mem with
  | nil => rfl
  | cons q qs ih => simp [idealTurns, ih]

theorem idealTurns_snoc (modelFn : String → String → String)
    (qs : List String) (q : String) (mem : List Turn) :
    idealTurns modelFn mem (qs ++ [q]) =
      idealTurns modelFn mem qs ++
        [(q, modelFn q (renderTranscript (mem ++ idealTurns modelFn mem qs)))] := by
  induction qs generalizing mem with
  | nil => simp [idealTurns]
  | cons q' qs ih =>
    rw [List.cons_append, idealTurns, idealTurns, ih]
    simp

/-- C7: starting a warm context with empty memory, N successful cycles
over questions `qs` leave exactly the N (question, answer) pairs in
memory, in arrival order (their first components are `qs` itself); the
(N+1)th cycle records the model's answer computed from the transcript
of exactly those N prior pairs — so that is the transcript supplied to
the (N+1)th model invocation; and an empty transcript renders as the
empty string. -/
theorem claim7_transcript_exact (modelFn : String → String → String)
    (token chatId : Option String) (qs : List String) (q : String) :
    runHandlers modelFn token chatId [] qs = idealTurns modelFn [] qs ∧
    (idealTurns modelFn [] qs).map Prod.fst = qs ∧
    runHandlers modelFn token chatId [] (qs ++ [q]) =
      idealTurns modelFn [] qs ++
        [(q, modelFn q (renderTranscript (idealTurns modelFn [] qs)))] ∧
    renderTranscript [] = "" := by
  refine ⟨by simpa using runHandlers_eq_idealTurns modelFn token chatId qs [],
    idealTurns_map_fst modelFn qs [], ?_, rfl⟩
  rw [runHandlers_eq_idealTurns, idealTurns_snoc]
  simp

end GenAI
